import Mathlib

/-!
A shallow embedding of the character / equipment / attack-damage core of the
txtrpg repository (src/src/character.rs), together with proofs of the spec's
claims about it.

Modelling conventions:
* `AttributeValue` and `Health` (declared in the repository's types module,
  which is not part of the sources given): the spec describes them as signed
  integers with no fixed range enforced, so they are modelled as `Int`.
* Rust `HashMap<Attribute, AttributeValue>` is modelled as a function
  `Attribute → Option Int`; a key is "present" when the function returns
  `some`.  A HashMap holds at most one value per key, so "exactly one stored
  value for each attribute" is presence of every attribute.
* Rust panics (`unwrap`/`expect` on a missing attribute, `assert_eq!` on a
  slot category mismatch) are modelled as `Except.error` with the error kind
  the spec gives each failure (`AttributeNotFound`, `SlotTypeMismatch`).
* The Rust floating-point pipeline `((x as f64) * factor) as i64` is modelled
  exactly as dyadic-rational arithmetic: `0.2_f64` is the IEEE-754 double
  3602879701896397 / 2^54, `x as f64` rounds the integer to 53 significant
  bits (round to nearest, ties to even), the product is rounded the same way,
  and the cast to integer truncates toward zero.  All magnitudes arising from
  i64-sized inputs stay far below the overflow threshold of `f64`, so
  overflow to infinity is not modelled.
-/

/-- The ten character attributes (enum `Attribute` in character.rs). -/
inductive Attribute where
  | Charisma
  | Constitution
  | Defense
  | Dexterity
  | Intelligence
  | Luck
  | Perception
  | Strength
  | Willpower
  | Wisdom
deriving DecidableEq, Repr

/-- Modelled from the spec: the item category tag. The closed set includes the
four armor categories (one per armor slot) and weapon categories; the weapon
categories named in the repository's tests are included. The item module
itself is not among the given sources. -/
inductive ItemType where
  | ArmorHead
  | ArmorChest
  | ArmorLegs
  | ArmorFeet
  | WeaponSword
  | WeaponHammer
deriving DecidableEq, Repr

/-- Modelled from the spec: an `ItemInfluence` is an (attribute, integer
magnitude) pair attached to an item.  The source field `attribute` is named
`attr` here because `attribute` is a Lean keyword. -/
structure ItemInfluence where
  attr : Attribute
  amount : Int
deriving DecidableEq, Repr

/-- Modelled from the spec: an item carries a category tag and an optional
influence pair; no other item field is consulted by this core. -/
structure Item where
  item_type : ItemType
  influence : Option ItemInfluence
deriving DecidableEq, Repr

/-- Modelled from the spec: the inventory is an opaque handle constructed with
a fixed capacity and not otherwise consulted by this core. -/
structure Inventory where
  capacity : Nat
deriving DecidableEq, Repr

/-- Modelled from the spec: `Inventory::new(size)`. -/
def Inventory.new (size : Nat) : Inventory := ⟨size⟩

/-- The two fatal failure kinds of the core (spec section 7); in the Rust
reference both are panics. -/
inductive CharError where
  | AttributeNotFound
  | SlotTypeMismatch
deriving DecidableEq, Repr

/-- The attribute store: HashMap modelled as a partial mapping. -/
def AttrMap : Type := Attribute → Option Int

/-- HashMap.new. -/
def AttrMap.empty : AttrMap := fun _ => none

/-- HashMap::insert (return value unused in the source). -/
def AttrMap.insert (m : AttrMap) (k : Attribute) (v : Int) : AttrMap :=
  fun b => if b = k then some v else m b

/-- Bit length, computed with explicit fuel so that it reduces by `rfl`
(the fuel n is always enough: the argument halves at every step). -/
def natBitsAux : Nat → Nat → Nat
  | 0, _ => 0
  | fuel + 1, n => if n = 0 then 0 else natBitsAux fuel (n / 2) + 1

/-- Bit length of a natural number. -/
def natBits (n : Nat) : Nat := natBitsAux n n

/-- Round the real value n / 2^s to the nearest integer, ties to even
(the IEEE-754 default rounding, applied to a dyadic rational). -/
def rshiftRNE (n : Int) (s : Nat) : Int :=
  if s = 0 then n else
    let d : Int := 2 ^ s
    let q := Int.fdiv n d
    let r := n - q * d
    let half : Int := 2 ^ (s - 1)
    if r < half then q
    else if half < r then q + 1
    else if q % 2 = 0 then q else q + 1

/-- Round the dyadic rational n / 2^k to the nearest IEEE-754 double
(53 significant bits, round to nearest, ties to even), returning the
numerator of the result over the same denominator 2^k; the rounding of the
significand depends only on the numerator, so k is not a parameter.  Valid in
the exponent range where doubles are normal and finite, which covers every
value this development produces. -/
def roundF64num (n : Int) : Int :=
  let b := natBits n.natAbs
  if b ≤ 53 then n else rshiftRNE n (b - 53) * 2 ^ (b - 53)

/-- Rust `x as f64` for an integer x: round to the nearest double. -/
def intToF64 (n : Int) : Int := roundF64num n

/-- Rust `((amount as f64) * factor) as i64` where factor is the double
factorNum / 2^54: convert, multiply (the product is rounded to the nearest
double), then truncate toward zero (`Int.tdiv`, matching the `as i64` cast
on an in-range value). -/
def f64_mul_trunc (amount : Int) (factorNum : Int) : Int :=
  Int.tdiv (roundF64num (intToF64 amount * factorNum)) (2 ^ 54)

/-- The constant `DEXTERITY_INFLUENCE: f64 = 0.2` of character.rs, as the
numerator of the IEEE-754 double 0.2 over 2^54. -/
def DEXTERITY_INFLUENCE : Int := 3602879701896397

/-- The double `1_f64` of character.rs, as a numerator over 2^54. -/
def ONE_F64 : Int := 2 ^ 54

/-- The `Character` struct of character.rs. -/
structure Character where
  name : String
  health : Int
  attributes : AttrMap
  armor_slot_head : Option Item
  armor_slot_chest : Option Item
  armor_slot_legs : Option Item
  armor_slot_feet : Option Item
  weapon_slot_left : Option Item
  weapon_slot_right : Option Item
  inventory : Inventory

/-- `Character::default_attributes`: the canonical ten-entry baseline,
built by the same insertion sequence as the source. -/
def Character.default_attributes : AttrMap :=
  (((((((((AttrMap.empty.insert .Charisma 5).insert .Constitution 30).insert
    .Defense 15).insert .Dexterity 10).insert .Intelligence 5).insert
    .Luck 0).insert .Perception 10).insert .Strength 20).insert
    .Willpower 15).insert .Wisdom 5

/-- `Character::new`: defaults, health = the stored Constitution value
(the indexing `map[&Constitution]` panics on absence; here the presence proof
is supplied directly), all slots empty, inventory of capacity 30. -/
def Character.new (name : String) : Character :=
  let attribute_map := Character.default_attributes
  { name := name
    health := (attribute_map Attribute.Constitution).get (by decide)
    attributes := attribute_map
    armor_slot_head := none
    armor_slot_chest := none
    armor_slot_legs := none
    armor_slot_feet := none
    weapon_slot_left := none
    weapon_slot_right := none
    inventory := Inventory.new 30 }

/-- `Character::update_attribute`: overwrite the stored value;
`get_mut(..).unwrap()` panics when the attribute is absent. -/
def Character.update_attribute (c : Character) (attr : Attribute)
    (value : Int) : Except CharError Character :=
  match c.attributes attr with
  | none => .error .AttributeNotFound
  | some _ => .ok { c with
      attributes := fun b => if b = attr then some value else c.attributes b }

/-- `Character::get_attribute_value`: `get(..).unwrap()`. -/
def Character.get_attribute_value (c : Character) (attr : Attribute) :
    Except CharError Int :=
  match c.attributes attr with
  | none => .error .AttributeNotFound
  | some v => .ok v

/-- The weapon-slot contribution block of `Character::attack_damage`,
duplicated verbatim in the source for the left and the right slot: if the
slot holds an item carrying an influence, add the influence amount scaled by
`DEXTERITY_INFLUENCE` when the influence attribute is Dexterity and by `1_f64`
otherwise; an empty slot or an influence-free item contributes nothing. -/
def weaponSlotDamage (slot : Option Item) : Int :=
  match slot with
  | some inner_item =>
    match inner_item.influence with
    | some infl =>
      let influence :=
        if infl.attr = Attribute.Dexterity then DEXTERITY_INFLUENCE
        else ONE_F64
      f64_mul_trunc infl.amount influence
    | none => 0
  | none => 0

/-- `Character::attack_damage`: look up Dexterity (panic if absent), scale it
by the dexterity influence, look up Strength (panic if absent), accumulate
the two weapon slots' contributions, and sum. -/
def Character.attack_damage (c : Character) : Except CharError Int :=
  match c.attributes Attribute.Dexterity with
  | none => .error .AttributeNotFound
  | some base_dexterity0 =>
    let base_dexterity := f64_mul_trunc base_dexterity0 DEXTERITY_INFLUENCE
    match c.attributes Attribute.Strength with
    | none => .error .AttributeNotFound
    | some base_strength =>
      let additional_damage : Int :=
        0 + weaponSlotDamage c.weapon_slot_left
          + weaponSlotDamage c.weapon_slot_right
      .ok (base_strength + base_dexterity + additional_damage)

/-- The `assert_eq!(inner_item.item_type, expected)` guard shared by the four
armor-slot setters: failure is the SlotTypeMismatch panic. -/
def assertItemType (item : Option Item) (expected : ItemType) :
    Except CharError Unit :=
  match item with
  | some inner_item =>
    if inner_item.item_type = expected then .ok () else .error .SlotTypeMismatch
  | none => .ok ()

/-- `Character::set_armor_slot_head`. -/
def Character.set_armor_slot_head (c : Character) (item : Option Item) :
    Except CharError Character :=
  match assertItemType item ItemType.ArmorHead with
  | .ok _ => .ok { c with armor_slot_head := item }
  | .error e => .error e

/-- `Character::set_armor_slot_chest`. -/
def Character.set_armor_slot_chest (c : Character) (item : Option Item) :
    Except CharError Character :=
  match assertItemType item ItemType.ArmorChest with
  | .ok _ => .ok { c with armor_slot_chest := item }
  | .error e => .error e

/-- `Character::set_armor_slot_legs`. -/
def Character.set_armor_slot_legs (c : Character) (item : Option Item) :
    Except CharError Character :=
  match assertItemType item ItemType.ArmorLegs with
  | .ok _ => .ok { c with armor_slot_legs := item }
  | .error e => .error e

/-- `Character::set_armor_slot_feet`. -/
def Character.set_armor_slot_feet (c : Character) (item : Option Item) :
    Except CharError Character :=
  match assertItemType item ItemType.ArmorFeet with
  | .ok _ => .ok { c with armor_slot_feet := item }
  | .error e => .error e

/-- `Character::set_weapon_slot_right`: no validation, total. -/
def Character.set_weapon_slot_right (c : Character) (item : Option Item) :
    Character :=
  { c with weapon_slot_right := item }

/-- `Character::set_weapon_slot_left`: no validation, total. -/
def Character.set_weapon_slot_left (c : Character) (item : Option Item) :
    Character :=
  { c with weapon_slot_left := item }

/-- The states reachable through the public API: constructed by
`Character::new` and mutated only by `update_attribute` and the six slot
setters (a panicking call produces no new state). -/
inductive Reachable : Character → Prop where
  | new (name : String) : Reachable (Character.new name)
  | update {c c' : Character} (a : Attribute) (v : Int) : Reachable c →
      c.update_attribute a v = .ok c' → Reachable c'
  | armorHead {c c' : Character} (item : Option Item) : Reachable c →
      c.set_armor_slot_head item = .ok c' → Reachable c'
  | armorChest {c c' : Character} (item : Option Item) : Reachable c →
      c.set_armor_slot_chest item = .ok c' → Reachable c'
  | armorLegs {c c' : Character} (item : Option Item) : Reachable c →
      c.set_armor_slot_legs item = .ok c' → Reachable c'
  | armorFeet {c c' : Character} (item : Option Item) : Reachable c →
      c.set_armor_slot_feet item = .ok c' → Reachable c'
  | weaponLeft {c : Character} (item : Option Item) : Reachable c →
      Reachable (c.set_weapon_slot_left item)
  | weaponRight {c : Character} (item : Option Item) : Reachable c →
      Reachable (c.set_weapon_slot_right item)

/-! Helper lemmas shared by the claim proofs. -/

/-- A successful `update_attribute` replaces exactly the stored value. -/
theorem update_attribute_ok {c c' : Character} {a : Attribute} {v : Int}
    (h : c.update_attribute a v = .ok c') :
    c' = { c with attributes := fun b => if b = a then some v else c.attributes b } := by
  unfold Character.update_attribute at h
  cases hc : c.attributes a with
  | none => rw [hc] at h; exact Except.noConfusion h
  | some w => rw [hc] at h; exact (Except.ok.inj h).symm

/-- A successful head-armor assignment replaces exactly the head slot. -/
theorem set_armor_slot_head_ok {c c' : Character} {item : Option Item}
    (h : c.set_armor_slot_head item = .ok c') :
    c' = { c with armor_slot_head := item } := by
  unfold Character.set_armor_slot_head at h
  cases ha : assertItemType item ItemType.ArmorHead with
  | ok u => rw [ha] at h; exact (Except.ok.inj h).symm
  | error e => rw [ha] at h; exact Except.noConfusion h

/-- A successful chest-armor assignment replaces exactly the chest slot. -/
theorem set_armor_slot_chest_ok {c c' : Character} {item : Option Item}
    (h : c.set_armor_slot_chest item = .ok c') :
    c' = { c with armor_slot_chest := item } := by
  unfold Character.set_armor_slot_chest at h
  cases ha : assertItemType item ItemType.ArmorChest with
  | ok u => rw [ha] at h; exact (Except.ok.inj h).symm
  | error e => rw [ha] at h; exact Except.noConfusion h

/-- A successful legs-armor assignment replaces exactly the legs slot. -/
theorem set_armor_slot_legs_ok {c c' : Character} {item : Option Item}
    (h : c.set_armor_slot_legs item = .ok c') :
    c' = { c with armor_slot_legs := item } := by
  unfold Character.set_armor_slot_legs at h
  cases ha : assertItemType item ItemType.ArmorLegs with
  | ok u => rw [ha] at h; exact (Except.ok.inj h).symm
  | error e => rw [ha] at h; exact Except.noConfusion h

/-- A successful feet-armor assignment replaces exactly the feet slot. -/
theorem set_armor_slot_feet_ok {c c' : Character} {item : Option Item}
    (h : c.set_armor_slot_feet item = .ok c') :
    c' = { c with armor_slot_feet := item } := by
  unfold Character.set_armor_slot_feet at h
  cases ha : assertItemType item ItemType.ArmorFeet with
  | ok u => rw [ha] at h; exact (Except.ok.inj h).symm
  | error e => rw [ha] at h; exact Except.noConfusion h

/-- The ten-attribute invariant: every reachable state stores a value for
every attribute. -/
theorem reachable_isSome {c : Character} (h : Reachable c) :
    ∀ a, (c.attributes a).isSome = true := by
  induction h with
  | new name => intro a; cases a <;> rfl
  | update a v hr heq ih =>
    have hc' := update_attribute_ok heq
    subst hc'
    intro b
    by_cases hb : b = a
    · show (if b = a then some v else _).isSome = true
      rw [if_pos hb]
      rfl
    · show (if b = a then some v else _).isSome = true
      rw [if_neg hb]
      exact ih b
  | armorHead item hr heq ih =>
    have hc' := set_armor_slot_head_ok heq
    subst hc'
    exact ih
  | armorChest item hr heq ih =>
    have hc' := set_armor_slot_chest_ok heq
    subst hc'
    exact ih
  | armorLegs item hr heq ih =>
    have hc' := set_armor_slot_legs_ok heq
    subst hc'
    exact ih
  | armorFeet item hr heq ih =>
    have hc' := set_armor_slot_feet_ok heq
    subst hc'
    exact ih
  | weaponLeft item hr ih => exact ih
  | weaponRight item hr ih => exact ih

/-! The claims. -/

/-- The per-slot additional-damage formula as the claim states it: for an
equipped item carrying an influence (attribute, amount), truncate toward zero
of amount times factor, with factor 0.2 for a Dexterity influence and 1.0 for
every other attribute; an empty slot or an influence-free item contributes 0. -/
def claimSlotDamage (slot : Option Item) : Int :=
  match slot with
  | none => 0
  | some it =>
    match it.influence with
    | none => 0
    | some infl =>
      f64_mul_trunc infl.amount
        (if infl.attr = Attribute.Dexterity then DEXTERITY_INFLUENCE else ONE_F64)

/-- The source's slot block and the claim's formula agree. -/
theorem weaponSlotDamage_eq_claim (slot : Option Item) :
    weaponSlotDamage slot = claimSlotDamage slot := by
  cases slot with
  | none => rfl
  | some it =>
    cases hi : it.influence with
    | none => simp [weaponSlotDamage, claimSlotDamage, hi]
    | some infl => simp [weaponSlotDamage, claimSlotDamage, hi]

/-- C1: for every character state storing Strength s and Dexterity d,
attack_damage returns s + truncate(d * 0.2) + additional, where additional is
the sum over the two weapon slots of truncate(amount * factor), factor 0.2
for a Dexterity-tagged influence and 1.0 otherwise, empty or influence-free
slots contributing 0 (all arithmetic in the IEEE-double model). -/
theorem c1_attack_damage_formula (c : Character) (s d : Int)
    (hs : c.attributes Attribute.Strength = some s)
    (hd : c.attributes Attribute.Dexterity = some d) :
    c.attack_damage = .ok (s + f64_mul_trunc d DEXTERITY_INFLUENCE +
      (claimSlotDamage c.weapon_slot_left + claimSlotDamage c.weapon_slot_right)) := by
  unfold Character.attack_damage
  rw [hd, hs]
  simp only [weaponSlotDamage_eq_claim]
  congr 1
  ring

/-- Witness for C1 at a concrete state: a fresh character with a
Strength-influencing sword in the left slot. -/
theorem c1_attack_damage_formula_witness :
    ((Character.new "Aya").set_weapon_slot_left
        (some ⟨ItemType.WeaponSword, some ⟨Attribute.Strength, 10⟩⟩)).attack_damage
      = .ok (20 + f64_mul_trunc 10 DEXTERITY_INFLUENCE +
          (claimSlotDamage (some ⟨ItemType.WeaponSword, some ⟨Attribute.Strength, 10⟩⟩) +
            claimSlotDamage none)) :=
  c1_attack_damage_formula _ 20 10 rfl rfl

/-- C2: every reachable character state stores a value for each of the ten
attributes, and consequently get_attribute_value, update_attribute and
attack_damage never take their AttributeNotFound branch on such a state. -/
theorem c2_ten_attribute_invariant (c : Character) (h : Reachable c) :
    (∀ a, (c.attributes a).isSome = true) ∧
    (∀ a, ∃ v, c.get_attribute_value a = .ok v) ∧
    (∀ a v, ∃ c', c.update_attribute a v = .ok c') ∧
    (∃ dmg, c.attack_damage = .ok dmg) := by
  have hs := reachable_isSome h
  refine ⟨hs, fun a => ?_, fun a v => ?_, ?_⟩
  · obtain ⟨w, hw⟩ := Option.isSome_iff_exists.mp (hs a)
    exact ⟨w, by unfold Character.get_attribute_value; rw [hw]⟩
  · obtain ⟨w, hw⟩ := Option.isSome_iff_exists.mp (hs a)
    exact ⟨_, by unfold Character.update_attribute; rw [hw]⟩
  · obtain ⟨d, hd⟩ := Option.isSome_iff_exists.mp (hs Attribute.Dexterity)
    obtain ⟨s, hst⟩ := Option.isSome_iff_exists.mp (hs Attribute.Strength)
    exact ⟨_, by unfold Character.attack_damage; rw [hd, hst]⟩

/-- Witness for C2 at a concrete reachable state. -/
theorem c2_ten_attribute_invariant_witness :
    ∃ dmg, (Character.new "Wil").attack_damage = .ok dmg :=
  (c2_ten_attribute_invariant _ (Reachable.new "Wil")).2.2.2

/-- C3: each armor-slot setter rejects an item of the wrong category with
SlotTypeMismatch, and clearing any armor slot always succeeds and leaves the
slot empty. -/
theorem c3_armor_slot_validation (c : Character) (i : Item) :
    (i.item_type ≠ ItemType.ArmorHead →
      c.set_armor_slot_head (some i) = .error .SlotTypeMismatch) ∧
    (c.set_armor_slot_head none = .ok { c with armor_slot_head := none }) ∧
    (i.item_type ≠ ItemType.ArmorChest →
      c.set_armor_slot_chest (some i) = .error .SlotTypeMismatch) ∧
    (c.set_armor_slot_chest none = .ok { c with armor_slot_chest := none }) ∧
    (i.item_type ≠ ItemType.ArmorLegs →
      c.set_armor_slot_legs (some i) = .error .SlotTypeMismatch) ∧
    (c.set_armor_slot_legs none = .ok { c with armor_slot_legs := none }) ∧
    (i.item_type ≠ ItemType.ArmorFeet →
      c.set_armor_slot_feet (some i) = .error .SlotTypeMismatch) ∧
    (c.set_armor_slot_feet none = .ok { c with armor_slot_feet := none }) := by
  refine ⟨fun hne => ?_, rfl, fun hne => ?_, rfl, fun hne => ?_, rfl, fun hne => ?_, rfl⟩
  · simp [Character.set_armor_slot_head, assertItemType, hne]
  · simp [Character.set_armor_slot_chest, assertItemType, hne]
  · simp [Character.set_armor_slot_legs, assertItemType, hne]
  · simp [Character.set_armor_slot_feet, assertItemType, hne]

/-- Witness for C3: a sword is rejected by all four armor slots. -/
theorem c3_armor_slot_validation_witness :
    ((Character.new "W").set_armor_slot_head
        (some ⟨ItemType.WeaponSword, none⟩) = .error .SlotTypeMismatch) ∧
    ((Character.new "W").set_armor_slot_chest
        (some ⟨ItemType.WeaponSword, none⟩) = .error .SlotTypeMismatch) ∧
    ((Character.new "W").set_armor_slot_legs
        (some ⟨ItemType.WeaponSword, none⟩) = .error .SlotTypeMismatch) ∧
    ((Character.new "W").set_armor_slot_feet
        (some ⟨ItemType.WeaponSword, none⟩) = .error .SlotTypeMismatch) :=
  ⟨(c3_armor_slot_validation _ _).1 (by decide),
   (c3_armor_slot_validation _ _).2.2.1 (by decide),
   (c3_armor_slot_validation _ _).2.2.2.2.1 (by decide),
   (c3_armor_slot_validation _ _).2.2.2.2.2.2.1 (by decide)⟩

/-- C4: on any reachable state, updating any of the ten attributes to v and
then reading it back returns exactly v. -/
theorem c4_update_then_get (c : Character) (a : Attribute) (v : Int)
    (h : Reachable c) :
    ∃ c', c.update_attribute a v = .ok c' ∧ c'.get_attribute_value a = .ok v := by
  obtain ⟨w, hw⟩ := Option.isSome_iff_exists.mp (reachable_isSome h a)
  refine ⟨{ c with attributes := fun b => if b = a then some v else c.attributes b },
    ?_, ?_⟩
  · unfold Character.update_attribute
    rw [hw]
  · unfold Character.get_attribute_value
    simp

/-- Witness for C4, matching the repository's attribute_mutation test. -/
theorem c4_update_then_get_witness :
    ∃ c', (Character.new "Wil Wheaton").update_attribute Attribute.Dexterity 42 = .ok c' ∧
      c'.get_attribute_value Attribute.Dexterity = .ok 42 :=
  c4_update_then_get _ _ _ (Reachable.new "Wil Wheaton")

/-- C5: health is set once at construction to the stored Constitution value
(30 under the canonical defaults) and is never changed afterwards: every
reachable state still has health 30, and in particular a successful
update_attribute (Constitution included) leaves health unchanged. -/
theorem c5_health_frozen :
    (∀ name, some (Character.new name).health
        = Character.default_attributes Attribute.Constitution ∧
      (Character.new name).health = 30) ∧
    (∀ c, Reachable c → c.health = 30) ∧
    (∀ c (a : Attribute) (v : Int), Reachable c →
      ∃ c', c.update_attribute a v = .ok c' ∧ c'.health = c.health) := by
  refine ⟨fun name => ⟨rfl, rfl⟩, fun c h => ?_, fun c a v h => ?_⟩
  · induction h with
    | new name => rfl
    | update a v hr heq ih =>
      have hc' := update_attribute_ok heq
      subst hc'
      exact ih
    | armorHead item hr heq ih =>
      have hc' := set_armor_slot_head_ok heq
      subst hc'
      exact ih
    | armorChest item hr heq ih =>
      have hc' := set_armor_slot_chest_ok heq
      subst hc'
      exact ih
    | armorLegs item hr heq ih =>
      have hc' := set_armor_slot_legs_ok heq
      subst hc'
      exact ih
    | armorFeet item hr heq ih =>
      have hc' := set_armor_slot_feet_ok heq
      subst hc'
      exact ih
    | weaponLeft item hr ih => exact ih
    | weaponRight item hr ih => exact ih
  · obtain ⟨w, hw⟩ := Option.isSome_iff_exists.mp (reachable_isSome h a)
    exact ⟨{ c with attributes := fun b => if b = a then some v else c.attributes b },
      by unfold Character.update_attribute; rw [hw], rfl⟩

/-- Witness for C5: a concrete construction and a concrete Constitution
update that leaves health alone. -/
theorem c5_health_frozen_witness :
    (Character.new "B").health = 30 ∧
    (∃ c', (Character.new "B").update_attribute Attribute.Constitution 7 = .ok c' ∧
      c'.health = (Character.new "B").health) :=
  ⟨(c5_health_frozen.1 "B").2,
   c5_health_frozen.2.2 _ Attribute.Constitution 7 (Reachable.new "B")⟩

/-- C6: a freshly constructed character, whatever its name, has
attack_damage 22 = Strength 20 + truncate(10 * 0.2) + 0. -/
theorem c6_fresh_attack_damage (name : String) :
    (Character.new name).attack_damage = .ok 22 := rfl

/-- C7: attack_damage is invariant under swapping the two weapon slots. -/
theorem c7_weapon_swap_symmetric (c : Character) :
    ({ c with weapon_slot_left := c.weapon_slot_right,
              weapon_slot_right := c.weapon_slot_left } : Character).attack_damage
      = c.attack_damage := by
  unfold Character.attack_damage
  cases hd : c.attributes Attribute.Dexterity with
  | none => rfl
  | some d =>
    cases hs : c.attributes Attribute.Strength with
    | none => rfl
    | some s =>
      show Except.ok _ = Except.ok _
      congr 1
      ring

/-- C8: default_attributes stores exactly the canonical baseline value for
each of the ten attributes; the key type is the closed ten-element Attribute
enum, so no other key exists. -/
theorem c8_default_attributes (a : Attribute) :
    Character.default_attributes a = some (match a with
      | .Charisma => 5
      | .Constitution => 30
      | .Defense => 15
      | .Dexterity => 10
      | .Intelligence => 5
      | .Luck => 0
      | .Perception => 10
      | .Strength => 20
      | .Willpower => 15
      | .Wisdom => 5) := by
  cases a <;> rfl

/-- C9: the weapon-slot setters are total (they never fail), store exactly
the given optional item in the corresponding slot, and perform no category
validation (no condition on the item is required). -/
theorem c9_weapon_slots_unchecked (c : Character) (item : Option Item) :
    c.set_weapon_slot_left item = { c with weapon_slot_left := item } ∧
    c.set_weapon_slot_right item = { c with weapon_slot_right := item } :=
  ⟨rfl, rfl⟩

/-- C10: attack_damage reads only Strength, Dexterity and the two weapon
slots: two states agreeing on those four produce the same result, whatever
their name, health, armor slots, inventory or other attribute values. -/
theorem c10_attack_damage_noninterference (ca cb : Character)
    (hs : ca.attributes Attribute.Strength = cb.attributes Attribute.Strength)
    (hd : ca.attributes Attribute.Dexterity = cb.attributes Attribute.Dexterity)
    (hl : ca.weapon_slot_left = cb.weapon_slot_left)
    (hr : ca.weapon_slot_right = cb.weapon_slot_right) :
    ca.attack_damage = cb.attack_damage := by
  unfold Character.attack_damage
  rw [hs, hd, hl, hr]

/-- Witness for C10: two concrete states differing in name, health, a head
armor piece and the stored Luck value, agreeing on attack_damage. -/
theorem c10_attack_damage_noninterference_witness :
    (Character.new "Alice").attack_damage =
      ({ Character.new "Bob" with
          health := 0,
          armor_slot_head := some ⟨ItemType.ArmorHead, none⟩,
          attributes := fun b =>
            if b = Attribute.Luck then some 99
            else Character.default_attributes b } : Character).attack_damage :=
  c10_attack_damage_noninterference _ _ rfl rfl rfl rfl
